import Mathlib

/-!
Verification of the OpsAgent routing-and-dispatch layer.

Shallow embedding of:
- the conversation router of src/app/routing/coordinator.py (create_router_node.router,
  route_to_agent, create_agent_wrapper.agent_execution, create_ops_coordinator);
- the MCP registry of src/app/mcp_integration/client.py (MCPClientManager and the
  module-level singleton get_mcp_manager);
- the specialist factory of src/app/agents/specialized_agent.py.

External collaborators (the language model classification call, the aggregated
MultiServerMCPClient discovery call, tool execution) are taken as function-valued
parameters; an exception raised by such a call is an Except.error value.
-/

/-! ## Conversation data model -/

/-- Message role, mirroring the langchain message classes: HumanMessage has
type "human", AIMessage "ai", SystemMessage "system", ToolMessage "tool". -/
inductive Role where
  | human
  | ai
  | system
  | tool
deriving DecidableEq, Repr

/-- One element of a structured multi-part content list: a dict part carrying an
optional "text" field, or any other part carried by its string rendering. -/
inductive ContentPart where
  | pdict (text : Option String)
  | pother (s : String)
deriving DecidableEq, Repr

/-- Message content: a plain string, or a structured multi-part payload. -/
inductive MsgContent where
  | str (s : String)
  | parts (l : List ContentPart)
deriving DecidableEq, Repr

/-- One conversation turn. -/
structure Msg where
  role : Role
  content : MsgContent
deriving DecidableEq, Repr

/-- The closed set of specialist ids of RouteClassification.agent
(coordinator.py lines 42-49, a Literal enforced by structured output). -/
inductive AgentId where
  | ansible_agent
  | openshift_agent
  | terraform_agent
  | ops_agent
deriving DecidableEq, Repr

/-- The string name of an AgentId, as the Literal values in coordinator.py. -/
def agentIdName : AgentId → String
  | .ansible_agent => "ansible_agent"
  | .openshift_agent => "openshift_agent"
  | .terraform_agent => "terraform_agent"
  | .ops_agent => "ops_agent"

/-- Schema of the structured classification output (coordinator.py lines 42-49). -/
structure RouteClassification where
  agent : AgentId
  reasoning : String

/-- RoutingState (src/app/shared/state.py): conversation messages plus the route
decision and the currently active agent. -/
structure RoutingState where
  messages : List Msg
  route_decision : String
  current_agent : String

/-! ## Conversation router (coordinator.py lines 52-156) -/

/-- Content extraction of coordinator.py lines 78-83: a string is used as is; a
list payload yields the first part's "text" field when that part is a dict,
the string rendering of the first part otherwise, and "" when the list is empty. -/
def extractRouterContent : MsgContent → String
  | .str s => s
  | .parts [] => ""
  | .parts (.pdict t :: _) => t.getD ""
  | .parts (.pother s :: _) => s

/-- Context rendering of coordinator.py lines 94-98: list payloads yield the first
part's text (or its string rendering), the empty list renders as str of the empty
list, plain strings are used as is. -/
def renderCtxContent : MsgContent → String
  | .str s => s
  | .parts [] => "[]"
  | .parts (.pdict t :: _) => t.getD ""
  | .parts (.pother s :: _) => s

/-- Truncation of coordinator.py line 99: content longer than 200 characters is
cut to 200 and an ellipsis marker appended. -/
def truncate200 (s : String) : String :=
  if s.length > 200 then s.take 200 ++ "..." else s

/-- Sender label of coordinator.py line 93. -/
def senderOf (m : Msg) : String :=
  if m.role = Role.ai then "Agent" else "User"

/-- Conversation context of coordinator.py lines 89-100: built only when there are
at least two messages, over the last 3 (or last 2) messages, one line per message. -/
def buildContext (messages : List Msg) : String :=
  if messages.length ≥ 2 then
    let recent :=
      if messages.length ≥ 3 then messages.drop (messages.length - 3)
      else messages.drop (messages.length - 2)
    recent.foldl
      (fun acc m =>
        acc ++ senderOf m ++ ": " ++ truncate200 (renderCtxContent m.content) ++ "\n")
      ""
  else ""

/-- The most recent user message (coordinator.py lines 70-74): the last element of
the messages whose type is "human". -/
def lastUserMessage (messages : List Msg) : Option Msg :=
  (messages.filter (fun m => m.role = Role.human)).getLast?

/-- Result of the router node: the route decision written to state, plus whether
the classification call was reached (for the short-circuit contract). -/
structure RouterResult where
  decision : String
  classifierCalled : Bool
deriving DecidableEq, Repr

/-- The router node of coordinator.py lines 62-154. The classification call
(classifier.invoke on the prompt built from the context and the current content)
is the function-valued parameter classify; Except.error models a raised
exception, caught by the try/except at lines 148-154. -/
def router (classify : String → String → Except String RouteClassification)
    (messages : List Msg) : RouterResult :=
  if messages.isEmpty then ⟨"ops_agent", false⟩
  else
    match lastUserMessage messages with
    | none => ⟨"ops_agent", false⟩
    | some last =>
      let content := extractRouterContent last.content
      if content.trim = "" then ⟨"ops_agent", false⟩
      else
        match classify (buildContext messages) content with
        | .ok c => ⟨agentIdName c.agent, true⟩
        | .error _ => ⟨"ops_agent", true⟩

/-- Conditional-edge function of coordinator.py lines 159-161: returns the stored
route decision unchanged. -/
def route_to_agent (state : RoutingState) : String :=
  state.route_decision

/-- The conditional-edge mapping of coordinator.py lines 253-262: exactly the four
known agent ids have a target node; any other decision has none. -/
def routeEdgeTarget (decision : String) : Option String :=
  if decision = "ansible_agent" then some "ansible_agent"
  else if decision = "openshift_agent" then some "openshift_agent"
  else if decision = "terraform_agent" then some "terraform_agent"
  else if decision = "ops_agent" then some "ops_agent"
  else none

/-! ## MCP registry (src/app/mcp_integration/client.py) -/

/-- One server entry of the server_configs dict handed to the manager
(built in specialized_agent.py lines 57-66 from config.mcp.servers). -/
structure MCPServerConfig where
  url : String
  transport : String
  enabled : Bool
  headers : Option (List (String × String))
deriving DecidableEq, Repr

/-- One connection entry of the MultiServerMCPClient connections dict
(client.py lines 88-97). -/
structure MCPConnection where
  url : String
  transport : String
  headers : Option (List (String × String))
deriving DecidableEq, Repr

/-- A discovered tool: its name and the server it came from. -/
structure MCPTool where
  name : String
  server : String
deriving DecidableEq, Repr

/-- The manager's mutable fields (client.py lines 48-51). -/
structure MCPClientManager where
  client : Option (List (String × MCPConnection))
  toolsCache : Option (List MCPTool)
  initialized : Bool
deriving DecidableEq, Repr

/-- A freshly constructed manager (client.py __init__, lines 48-51). -/
def newMCPClientManager : MCPClientManager :=
  ⟨none, none, false⟩

/-- The filter-and-convert step of client.py lines 85-98: keep enabled servers,
in order, and build their connection entries. -/
def buildConnections (serverConfigs : List (String × MCPServerConfig)) :
    List (String × MCPConnection) :=
  (serverConfigs.filter (fun p => p.2.enabled)).map
    (fun p => (p.1, ⟨p.2.url, p.2.transport, p.2.headers⟩))

/-- MCPClientManager.initialize (client.py lines 53-122). The aggregated
discovery call MultiServerMCPClient.get_tools is the parameter discover;
Except.error models the call raising. Returns the manager's state after the
call together with the call's outcome (Except.error e models the re-raise at
line 122). -/
def initializeServers (m : MCPClientManager)
    (serverConfigs : List (String × MCPServerConfig))
    (discover : List (String × MCPConnection) → Except String (List MCPTool)) :
    MCPClientManager × Except String Unit :=
  if m.initialized then (m, Except.ok ())
  else
    let connections := buildConnections serverConfigs
    if connections.isEmpty then ({ m with initialized := true }, Except.ok ())
    else
      match discover connections with
      | .ok tools =>
          ({ m with
              client := some connections
              toolsCache := some tools
              initialized := true }, Except.ok ())
      | .error e =>
          ({ m with client := some connections, initialized := false },
           Except.error e)

/-- MCPClientManager.get_tools (client.py lines 124-143): the serverName argument
is accepted but never used; an uninitialized manager or an absent cache yields
the empty list, otherwise the whole cache is returned. -/
def getTools (m : MCPClientManager) (serverName : Option String) : List MCPTool :=
  if !m.initialized then []
  else
    match m.toolsCache with
    | none => []
    | some ts => ts

/-- MCPClientManager.refresh_tools (client.py lines 145-163): takes no server
name; re-runs the aggregated discovery, replacing the whole cache on success;
on failure (Except.error) the cache is left unchanged and the previously cached
list (or the empty list) is returned. -/
def refreshTools (m : MCPClientManager)
    (rediscover : Except String (List MCPTool)) :
    MCPClientManager × List MCPTool :=
  if !m.initialized || m.client.isNone then (m, [])
  else
    match rediscover with
    | .ok ts => ({ m with toolsCache := some ts }, ts)
    | .error _ => (m, m.toolsCache.getD [])

/-! ## Turn coordinator wrapper and the bounded tool-call loop -/

/-- The recursion budget the coordinator hands to every specialist invocation
(coordinator.py line 197). -/
def recursionLimit : Nat := 50

/-- One tool-invocation request embedded in a model response. -/
structure ToolCallReq where
  name : String
  args : String
  callId : String
deriving DecidableEq, Repr

/-- One response of the bound language model: free-form content plus zero or
more tool-invocation requests. -/
structure ModelResponse where
  content : String
  toolCalls : List ToolCallReq
deriving DecidableEq, Repr

/-- Modelled from the spec: the bounded reason-act-observe loop run by the
specialist (spec section 4.5) whose implementation lives in the external
create_react_agent library, not in this repository. Each round trip sends the
turn sequence to the model, appends the model turn, and, when tool invocations
are requested, appends one tool-result turn per request (execTool covers
resolution and execution, errors included, as error strings) and recurs on the
remaining budget; a response with no tool calls ends the loop; budget
exhaustion returns the turns accumulated so far. Returns the final turn
sequence and the number of completed model-call/tool-execution round trips. -/
def boundedLoop (model : List Msg → ModelResponse) (execTool : ToolCallReq → String) :
    Nat → List Msg → List Msg × Nat
  | 0, msgs => (msgs, 0)
  | b + 1, msgs =>
    let r := model msgs
    let withAI := msgs ++ [Msg.mk Role.ai (MsgContent.str r.content)]
    if r.toolCalls.isEmpty then (withAI, 0)
    else
      let results := r.toolCalls.map
        (fun tc => Msg.mk Role.tool (MsgContent.str (execTool tc)))
      let step := boundedLoop model execTool b (withAI ++ results)
      (step.1, step.2 + 1)

/-- The directive-injection step of agent_execution (coordinator.py lines
186-193): for an agent carrying a prompt key, resolve the prompt text from the
config (the resolution getattr defaults to the empty string); when it is
non-empty, prepend it as a system message unless the first message already is
one. -/
def augmentMessages (promptKey : Option String) (agentPrompts : String → String)
    (messages : List Msg) : List Msg :=
  match promptKey with
  | none => messages
  | some key =>
    let prompt := agentPrompts key
    if prompt = "" then messages
    else
      match messages with
      | [] => messages
      | m :: rest =>
        if m.role = Role.system then m :: rest
        else Msg.mk Role.system (MsgContent.str prompt) :: m :: rest

/-- The state update an agent wrapper node returns. -/
structure AgentUpdate where
  messages : List Msg
  current_agent : String
deriving Repr

/-- agent_execution (coordinator.py lines 178-203): an empty conversation is
returned as an empty update without invoking the agent; otherwise the
conversation is augmented with the specialist directive and the agent graph is
invoked with the recursion budget (the invocation itself, create_react_agent's
loop, is the spec-modelled boundedLoop). -/
def agentExecution (agentName : String) (promptKey : Option String)
    (agentPrompts : String → String) (model : List Msg → ModelResponse)
    (execTool : ToolCallReq → String) (state : RoutingState) : AgentUpdate :=
  if state.messages = [] then ⟨[], agentName⟩
  else
    ⟨(boundedLoop model execTool recursionLimit
        (augmentMessages promptKey agentPrompts state.messages)).1, agentName⟩

/-! ## The process-wide singleton (client.py lines 187-214) -/

/-- The module-level state get_mcp_manager closes over: the _mcp_manager global
(an allocated manager's identity, or none) plus an allocation model giving each
constructed manager a fresh identity and recording its contents. -/
structure MCPProcess where
  globalManager : Option Nat
  nextId : Nat
  managers : List (Nat × MCPClientManager)

/-- get_mcp_manager (client.py lines 190-214): when the global is unset, a new
manager is constructed (uninitialized) and stored in the global; otherwise the
stored manager is returned and nothing changes. Returns the identity of the
returned manager and the new process state. -/
def getMCPManager (p : MCPProcess) : Nat × MCPProcess :=
  match p.globalManager with
  | some i => (i, p)
  | none =>
    (p.nextId,
     ⟨some p.nextId, p.nextId + 1, (p.nextId, newMCPClientManager) :: p.managers⟩)

/-- n further calls to get_mcp_manager, tracking only the process state. -/
def iterateGetManager : Nat → MCPProcess → MCPProcess
  | 0, p => p
  | n + 1, p => iterateGetManager n (getMCPManager p).2

/-! ## Concrete sample data for counterexamples and witnesses -/

/-- A two-provider configuration, both enabled (the shape built by
specialized_agent.py lines 57-66). -/
def twoProviderConfigs : List (String × MCPServerConfig) :=
  [("aap_ansible", ⟨"http://localhost:9005/mcp", "streamable_http", true, none⟩),
   ("openshift", ⟨"http://localhost:9010/mcp", "streamable_http", true, none⟩)]

/-- An aggregated discovery call that raises because one of the configured
providers is unreachable (MultiServerMCPClient.get_tools propagates the
connection exception of any single server). -/
def failingDiscovery : List (String × MCPConnection) → Except String (List MCPTool) :=
  fun _ => Except.error "connection refused"

/-- A tool of the aap_ansible provider. -/
def toolInventories : MCPTool := ⟨"list_inventories", "aap_ansible"⟩

/-- A tool of the openshift provider. -/
def toolPods : MCPTool := ⟨"list_pods", "openshift"⟩

/-- An initialized manager whose cache holds tools of two distinct providers. -/
def twoProviderManager : MCPClientManager :=
  ⟨some (buildConnections twoProviderConfigs), some [toolInventories, toolPods], true⟩

/-- The result of a later re-discovery: only the aap_ansible provider answered. -/
def rediscoveredAnsibleTools : List MCPTool := [⟨"launch_job", "aap_ansible"⟩]

/-- A routing state carrying a route decision outside the closed specialist set. -/
def unknownRouteState : RoutingState :=
  ⟨[Msg.mk Role.human (MsgContent.str "hello")], "database_agent", "ops_agent"⟩

/-- A prompt table resolving every key to a fixed non-empty directive. -/
def ansiblePrompt : String → String :=
  fun _ => "You are the Ansible automation specialist."

/-- A model that requests a further tool call on every response. -/
def alwaysToolModel : List Msg → ModelResponse :=
  fun _ => ⟨"calling a tool", [⟨"list_inventories", "", "call-1"⟩]⟩

/-- A tool executor returning a fixed payload. -/
def stubExecTool : ToolCallReq → String :=
  fun _ => "ok"

/-- A routing state holding one user turn. -/
def oneUserState : RoutingState :=
  ⟨[Msg.mk Role.human (MsgContent.str "list inventories")], "ops_agent", "ops_agent"⟩

/-- A process state before the first get_mcp_manager call. -/
def freshProcess : MCPProcess := ⟨none, 0, []⟩

/-! ## Helper lemmas -/

theorem boundedLoop_trips_le (model : List Msg → ModelResponse)
    (execTool : ToolCallReq → String) :
    ∀ b msgs, (boundedLoop model execTool b msgs).2 ≤ b := by
  intro b
  induction b with
  | zero => intro msgs; simp [boundedLoop]
  | succ n ih =>
    intro msgs
    rw [boundedLoop]
    dsimp only
    split
    · simp
    · exact Nat.succ_le_succ (ih _)

theorem boundedLoop_trips_exact (model : List Msg → ModelResponse)
    (execTool : ToolCallReq → String)
    (h : ∀ ms, (model ms).toolCalls ≠ []) :
    ∀ b msgs, (boundedLoop model execTool b msgs).2 = b := by
  intro b
  induction b with
  | zero => intro msgs; rfl
  | succ n ih =>
    intro msgs
    rw [boundedLoop]
    dsimp only
    rw [if_neg (by simpa using h msgs)]
    dsimp only
    rw [ih]

theorem boundedLoop_length_mono (model : List Msg → ModelResponse)
    (execTool : ToolCallReq → String) :
    ∀ b msgs, msgs.length ≤ (boundedLoop model execTool b msgs).1.length := by
  intro b
  induction b with
  | zero => intro msgs; exact Nat.le_refl _
  | succ n ih =>
    intro msgs
    rw [boundedLoop]
    dsimp only
    split
    · simp
    · exact le_trans (by simp) (ih _)

theorem boundedLoop_appends (model : List Msg → ModelResponse)
    (execTool : ToolCallReq → String) :
    ∀ b msgs, 0 < b → msgs.length + 1 ≤ (boundedLoop model execTool b msgs).1.length := by
  intro b msgs hb
  cases b with
  | zero => exact absurd hb (lt_irrefl 0)
  | succ n =>
    rw [boundedLoop]
    dsimp only
    split
    · simp
    · exact le_trans (by simp) (boundedLoop_length_mono model execTool n _)

theorem augmentMessages_length (promptKey : Option String)
    (agentPrompts : String → String) (messages : List Msg) :
    messages.length ≤ (augmentMessages promptKey agentPrompts messages).length := by
  unfold augmentMessages
  split
  · exact Nat.le_refl _
  · dsimp only
    split
    · exact Nat.le_refl _
    · split
      · exact Nat.le_refl _
      · split
        · exact Nat.le_refl _
        · simp

theorem getMCPManager_stable (p : MCPProcess) (i : Nat)
    (h : p.globalManager = some i) : getMCPManager p = (i, p) := by
  unfold getMCPManager
  rw [h]

theorem getMCPManager_sets_global (p : MCPProcess) :
    (getMCPManager p).2.globalManager = some (getMCPManager p).1 := by
  unfold getMCPManager
  cases hp : p.globalManager with
  | some i => simp [hp]
  | none => simp

theorem iterateGetManager_fixed (n : Nat) (p : MCPProcess) (i : Nat)
    (h : p.globalManager = some i) : iterateGetManager n p = p := by
  induction n with
  | zero => rfl
  | succ k ih =>
    rw [iterateGetManager, getMCPManager_stable p i h]
    exact ih

/-! ## Claim theorems -/

/-- C1: the claim says a single enabled provider's discovery failure leaves
initialize successful, the registry initialized, and the other providers'
tools available. The code does the opposite: evaluated at a two-provider
configuration whose aggregated discovery call raises, initialize re-raises the
exception, leaves the manager uninitialized, and caches no tools for any
provider, so get_tools returns the empty list even for the healthy provider. -/
theorem initializeAbortsWhollyOnDiscoveryFailure :
    (initializeServers newMCPClientManager twoProviderConfigs failingDiscovery).2
      = Except.error "connection refused" ∧
    (initializeServers newMCPClientManager twoProviderConfigs failingDiscovery).1.initialized
      = false ∧
    getTools (initializeServers newMCPClientManager twoProviderConfigs failingDiscovery).1
      (some "openshift") = [] ∧
    getTools (initializeServers newMCPClientManager twoProviderConfigs failingDiscovery).1
      none = [] := by
  refine ⟨rfl, rfl, rfl, rfl⟩

/-- C2 counterexample: an initialized registry caching tools of two providers
returns the openshift tool when asked for the aap_ansible provider's tools, so
a specialist bound to aap_ansible sees another provider's tool (cross-provider
leakage), refuting the claim as stated. -/
theorem getToolsLeaksOtherProvider :
    toolPods ∈ getTools twoProviderManager (some "aap_ansible") ∧
    toolPods.server ≠ "aap_ansible" := by
  constructor
  · simp [getTools, twoProviderManager]
  · decide

/-- C2 (amended): get_tools ignores the provider-name argument entirely — for
an initialized registry it returns the whole cached union across all providers
whatever name is passed, identical to the no-name call; so a specialist built
for provider P sees the union of every provider's tools, not only P's. -/
theorem getToolsIgnoresServerName (m : MCPClientManager) (name : Option String)
    (ts : List MCPTool) (h1 : m.initialized = true) (h2 : m.toolsCache = some ts) :
    getTools m name = ts ∧ getTools m name = getTools m none := by
  constructor
  · simp [getTools, h1, h2]
  · rfl

/-- C2 witness: the amended statement evaluated on the concrete two-provider
registry. -/
theorem getToolsIgnoresServerNameWitness :
    getTools twoProviderManager (some "aap_ansible") = [toolInventories, toolPods] ∧
    getTools twoProviderManager (some "aap_ansible") = getTools twoProviderManager none :=
  getToolsIgnoresServerName twoProviderManager (some "aap_ansible")
    [toolInventories, toolPods] rfl rfl

/-- C3: whenever the conversation is empty, has no user-role turn, or its most
recent user turn's extracted text trims to the empty string, the router
returns the default specialist ops_agent and the classification call is not
invoked — whatever the classifier would have answered. -/
theorem routerShortCircuitsToDefault
    (classify : String → String → Except String RouteClassification)
    (messages : List Msg)
    (h : messages = [] ∨ lastUserMessage messages = none ∨
      ∃ m, lastUserMessage messages = some m ∧
        (extractRouterContent m.content).trim = "") :
    router classify messages = ⟨"ops_agent", false⟩ := by
  unfold router
  rcases h with h | h | ⟨m, hm, ht⟩
  · subst h
    rfl
  · by_cases he : messages.isEmpty
    · simp [he]
    · simp [he, h]
  · by_cases he : messages.isEmpty
    · simp [he]
    · simp [he, hm, ht]

/-- C3 witness: a conversation holding only an assistant turn (no user turn)
short-circuits to ops_agent without consulting a classifier eager to answer
terraform_agent. -/
theorem routerShortCircuitsToDefaultWitness :
    router (fun _ _ => Except.ok ⟨AgentId.terraform_agent, "keyword"⟩)
      [Msg.mk Role.ai (MsgContent.str "How can I help?")] = ⟨"ops_agent", false⟩ :=
  routerShortCircuitsToDefault _ _ (Or.inr (Or.inl rfl))

/-- C4: when the classification call raises (modelled by a classifier that
returns Except.error on every input), the router returns the default
specialist ops_agent for every conversation; being a total function, it never
propagates the failure. -/
theorem routerClassificationFailureGivesDefault (err : String) (messages : List Msg) :
    (router (fun _ _ => Except.error err) messages).decision = "ops_agent" := by
  unfold router
  split
  · rfl
  · split
    · rfl
    · dsimp only
      split
      · rfl
      · rfl

/-- C5 counterexample: a routing state whose decision is outside the known set
is passed through unchanged by route_to_agent — it is not mapped to ops_agent
— and the conditional-edge mapping has no target for it, so dispatch errors
instead of falling back to the default specialist. -/
theorem unknownRouteDecisionNotDefaulted :
    route_to_agent unknownRouteState = "database_agent" ∧
    route_to_agent unknownRouteState ≠ "ops_agent" ∧
    routeEdgeTarget (route_to_agent unknownRouteState) = none := by
  refine ⟨rfl, by decide, rfl⟩

/-- C5 (amended): the coordinator has no defensive mapping for unknown route
decisions: route_to_agent returns the stored decision unchanged, and a
decision outside the closed set has no entry in the conditional-edge mapping,
so such a turn has no dispatch target rather than going to ops_agent. -/
theorem unknownRouteDecisionHasNoTarget (s : RoutingState)
    (h : s.route_decision ∉
      ["ansible_agent", "openshift_agent", "terraform_agent", "ops_agent"]) :
    route_to_agent s = s.route_decision ∧
    routeEdgeTarget (route_to_agent s) = none := by
  refine ⟨rfl, ?_⟩
  simp only [List.mem_cons, List.not_mem_nil, or_false, not_or] at h
  obtain ⟨h1, h2, h3, h4⟩ := h
  simp [routeEdgeTarget, route_to_agent, h1, h2, h3, h4]

/-- C5 witness: the amended statement evaluated at the concrete state carrying
the unknown decision database_agent. -/
theorem unknownRouteDecisionHasNoTargetWitness :
    route_to_agent unknownRouteState = unknownRouteState.route_decision ∧
    routeEdgeTarget (route_to_agent unknownRouteState) = none :=
  unknownRouteDecisionHasNoTarget unknownRouteState (by decide)

/-- C6: for a specialized agent (one carrying a prompt key) whose resolved
instruction text is non-empty, and any non-empty conversation, the directive
is prepended as a leading system turn exactly when the first message is not
already a system message; a conversation that already begins with a system
turn is dispatched unchanged. -/
theorem directivePrependedIffFirstNotSystem (key : String)
    (agentPrompts : String → String) (m : Msg) (rest : List Msg)
    (h : agentPrompts key ≠ "") :
    augmentMessages (some key) agentPrompts (m :: rest) =
      (if m.role = Role.system then m :: rest
       else Msg.mk Role.system (MsgContent.str (agentPrompts key)) :: m :: rest) := by
  simp [augmentMessages, h]

/-- C6 witness: a one-user-turn conversation gets the directive prepended. -/
theorem directivePrependedWitness :
    augmentMessages (some "ansible_agent") ansiblePrompt
      [Msg.mk Role.human (MsgContent.str "list inventories")] =
      [Msg.mk Role.system (MsgContent.str "You are the Ansible automation specialist."),
       Msg.mk Role.human (MsgContent.str "list inventories")] := by
  have h := directivePrependedIffFirstNotSystem "ansible_agent" ansiblePrompt
    (Msg.mk Role.human (MsgContent.str "list inventories")) [] (by decide)
  simpa [ansiblePrompt] using h

/-- C7 counterexample: refresh takes no provider name and replaces the whole
cache: after a successful re-discovery returning only aap_ansible tools, the
openshift provider's previously cached tool is gone, refuting "re-runs
discovery for the one named provider only and replaces that provider's
cache". -/
theorem refreshDropsOtherProvidersTools :
    toolPods ∈ getTools twoProviderManager none ∧
    toolPods ∉ getTools
      (refreshTools twoProviderManager (Except.ok rediscoveredAnsibleTools)).1 none ∧
    toolPods.server ≠ toolInventories.server := by
  refine ⟨?_, by decide, by decide⟩
  simp [getTools, twoProviderManager]

/-- C7 (amended): refresh re-runs the aggregated discovery for all providers
at once (it accepts no provider name); on success the whole tool cache is
replaced atomically by the new list, and on failure the previous cache is kept
unchanged and the previously cached list (or the empty list) is returned. -/
theorem refreshReplacesWholeCacheAtomically (m : MCPClientManager)
    (ts : List MCPTool) (e : String) (h1 : m.initialized = true)
    (h2 : m.client ≠ none) :
    refreshTools m (Except.ok ts) = ({ m with toolsCache := some ts }, ts) ∧
    refreshTools m (Except.error e) = (m, m.toolsCache.getD []) := by
  cases hc : m.client with
  | none => exact absurd hc h2
  | some cs => constructor <;> simp [refreshTools, h1, hc]

/-- C7 witness: on the concrete two-provider registry, a successful refresh
installs exactly the re-discovered list, and a failing refresh returns the old
cache unchanged. -/
theorem refreshWitness :
    refreshTools twoProviderManager (Except.ok rediscoveredAnsibleTools)
      = ({ twoProviderManager with toolsCache := some rediscoveredAnsibleTools },
         rediscoveredAnsibleTools) ∧
    refreshTools twoProviderManager (Except.error "timeout")
      = (twoProviderManager, [toolInventories, toolPods]) := by
  have h := refreshReplacesWholeCacheAtomically twoProviderManager
    rediscoveredAnsibleTools "timeout" rfl (by simp [twoProviderManager])
  exact ⟨h.1, h.2.trans (by rfl)⟩

/-- C8: the coordinator supplies a budget of 50 to every specialist
invocation; the specialist loop never performs more round trips than its
budget, and a model that requests a new tool call on every response terminates
at exactly the budget, returning the accumulated partial output. -/
theorem loopCeilingRespected (model : List Msg → ModelResponse)
    (execTool : ToolCallReq → String) :
    recursionLimit = 50 ∧
    (∀ b msgs, (boundedLoop model execTool b msgs).2 ≤ b) ∧
    ((∀ ms, (model ms).toolCalls ≠ []) →
      ∀ msgs, (boundedLoop model execTool recursionLimit msgs).2 = recursionLimit) :=
  ⟨rfl, boundedLoop_trips_le model execTool,
   fun h msgs => boundedLoop_trips_exact model execTool h recursionLimit msgs⟩

/-- C8 witness: a model that always requests a tool call runs exactly the
supplied budget of round trips on the empty conversation. -/
theorem loopCeilingRespectedWitness :
    (boundedLoop alwaysToolModel stubExecTool recursionLimit []).2 = recursionLimit :=
  (loopCeilingRespected alwaysToolModel stubExecTool).2.2
    (fun ms => by simp [alwaysToolModel]) []

/-- C9 counterexample: for the empty conversation the wrapper returns an empty
update without invoking the specialist, so the caller receives no newly
appended turn — refuting "at least one turn newly appended ... including the
empty conversation". -/
theorem emptyConversationNoNewTurn :
    (agentExecution "ops_agent" none ansiblePrompt alwaysToolModel stubExecTool
      ⟨[], "ops_agent", "ops_agent"⟩).messages = [] := rfl

/-- C9 (amended): for every non-empty conversation the dispatched wrapper
returns at least one more turn than it received (the specialist loop always
appends at least its first model turn), tagged with the dispatching agent's
name; only the empty conversation comes back with no new turn. -/
theorem nonemptyConversationGainsTurn (agentName : String)
    (promptKey : Option String) (agentPrompts : String → String)
    (model : List Msg → ModelResponse) (execTool : ToolCallReq → String)
    (state : RoutingState) (h : state.messages ≠ []) :
    state.messages.length + 1 ≤
      (agentExecution agentName promptKey agentPrompts model execTool state).messages.length ∧
    (agentExecution agentName promptKey agentPrompts model execTool state).current_agent
      = agentName := by
  unfold agentExecution
  rw [if_neg h]
  refine ⟨?_, rfl⟩
  dsimp only
  have h1 := augmentMessages_length promptKey agentPrompts state.messages
  have h2 := boundedLoop_appends model execTool recursionLimit
    (augmentMessages promptKey agentPrompts state.messages) (by decide)
  omega

/-- C9 witness: the amended statement evaluated on a one-user-turn state. -/
theorem nonemptyConversationGainsTurnWitness :
    oneUserState.messages.length + 1 ≤
      (agentExecution "ops_agent" none ansiblePrompt alwaysToolModel stubExecTool
        oneUserState).messages.length ∧
    (agentExecution "ops_agent" none ansiblePrompt alwaysToolModel stubExecTool
        oneUserState).current_agent = "ops_agent" :=
  nonemptyConversationGainsTurn "ops_agent" none ansiblePrompt alwaysToolModel
    stubExecTool oneUserState (by decide)

/-- C10: when the module global is unset, get_mcp_manager allocates a fresh
manager, constructed uninitialized, stores it in the global, and every later
call — after any number of intervening calls — returns that same manager. -/
theorem singletonManagerReturned (p : MCPProcess) (h : p.globalManager = none) :
    (getMCPManager p).1 = p.nextId ∧
    (getMCPManager p).2.managers.head? = some (p.nextId, newMCPClientManager) ∧
    newMCPClientManager.initialized = false ∧
    ∀ n, (getMCPManager (iterateGetManager n (getMCPManager p).2)).1
      = (getMCPManager p).1 := by
  refine ⟨by simp [getMCPManager, h], by simp [getMCPManager, h], rfl, ?_⟩
  intro n
  have hg := getMCPManager_sets_global p
  rw [iterateGetManager_fixed n (getMCPManager p).2 (getMCPManager p).1 hg,
    getMCPManager_stable (getMCPManager p).2 (getMCPManager p).1 hg]

/-- C10 witness: on the fresh process state, the first call returns the newly
allocated manager and the call after three further calls returns the same
manager. -/
theorem singletonManagerReturnedWitness :
    (getMCPManager freshProcess).1 = freshProcess.nextId ∧
    (getMCPManager (iterateGetManager 3 (getMCPManager freshProcess).2)).1
      = (getMCPManager freshProcess).1 := by
  have h := singletonManagerReturned freshProcess rfl
  exact ⟨h.1, h.2.2.2 3⟩
